import Mathlib

/-!
Shallow embedding of `qlib/contrib/online/utils.py`: persistence helpers for
the simulated-trading user-management layer.  The filesystem is modelled as an
explicit state (a set of existing directories plus an association list from
paths to file contents); every function of the module becomes a pure Lean
function over that state.  Dates are modelled by their `YYYY-MM-DD` components
(the string produced by `str(trade_date.date())`), numeric scores, amounts and
factors by integers (the module only stores and retrieves them, it never
computes with them), and JSON values by an explicit inductive type.

One defect of the source is modelled explicitly: `utils.py` imports neither
`json` nor `Order`, yet `save_order_list` calls `json.dump` and
`load_order_list` calls `json.load` and constructs `Order(...)`.  Both
functions therefore raise `NameError` — the save after `open("w")` has
created an empty file, the load right after opening an existing file — and
the embedding reproduces exactly that behaviour.
-/

namespace OnlineUtils

/-- A trading date, given by the three components of `str(trade_date.date())`,
which always has the shape `YYYY-MM-DD`; `YYYY, MM, DD = str(...).split("-")`
in the source projects out exactly these fields. -/
structure TradeDate where
  yyyy : String
  mm : String
  dd : String
deriving DecidableEq, Repr

/-- The string `str(trade_date.date())`. -/
def dateStr (d : TradeDate) : String :=
  d.yyyy ++ "-" ++ d.mm ++ "-" ++ d.dd

/-- A filesystem path, as its list of components (`pathlib.Path` with `/`). -/
abbrev Path := List String

/-- Rendering of a path, as it appears in error messages. -/
def pathStr (p : Path) : String :=
  String.intercalate "/" p

/-- JSON values, as written by `json.dump` and read back by `json.load`
(numbers restricted to the integers the module stores). -/
inductive Json where
  | num (n : Int)
  | str (s : String)
  | arr (elems : List Json)
  | obj (fields : List (String × Json))

/-- Contents of a file in the model: a JSON document (an order-list file some
external writer produced), CSV rows of (instrument, score) pairs (score
files), the empty `users.csv` registry with columns `user_id, add_date`, an
opaque pickled object, or an empty file — what `open("w")` leaves behind when
the body of the `with` block raises before writing anything. -/
inductive FileContent where
  | json (j : Json)
  | csv (rows : List (String × Int))
  | registry
  | pickled (n : Nat)
  | empty

/-- The filesystem state: the directories that exist, and an association list
from file paths to contents (first match wins, so writing conses). -/
structure FS where
  dirs : List Path
  files : List (Path × FileContent)

/-- Python exceptions the module can surface: `ValueError` raised explicitly
by the module, `FileNotFoundError` from opening a missing file inside a
library call, `NameError` from referencing an unimported name (`utils.py`
uses `json` and `Order` but imports neither), and any other exception. -/
inductive PyError where
  | valueError (msg : String)
  | fileNotFoundError (msg : String)
  | nameError (msg : String)
  | otherError (msg : String)

/-- Python `path.exists()`: true if the path is a directory or a file of the state. -/
def pathExists (fs : FS) (p : Path) : Bool :=
  fs.dirs.contains p || (fs.files.lookup p).isSome

/-- Python `path.mkdir(parents=True)`: the directory and all its ancestors
(the initial segments of the component list) now exist. -/
def mkdirParents (fs : FS) (p : Path) : FS :=
  { fs with dirs := p.inits ++ fs.dirs }

/-- Writing a file: the new binding shadows any previous one. -/
def setFile (fs : FS) (p : Path) (c : FileContent) : FS :=
  { fs with files := (p, c) :: fs.files }

/-- The content currently stored at a path, if any. -/
def fileAt (fs : FS) (p : Path) : Option FileContent :=
  fs.files.lookup p

/-- The function `load_instance`: raise `ValueError("Cannot find file {}")` if the path
does not exist, otherwise unpickle the file (opening a path that exists but
holds no file fails inside `open`). -/
def load_instance (fs : FS) (file_path : Path) : Except PyError FileContent :=
  if pathExists fs file_path then
    match fileAt fs file_path with
    | some c => .ok c
    | none => .error (.otherError ("cannot open " ++ pathStr file_path))
  else
    .error (.valueError ("Cannot find file " ++ pathStr file_path))

/-- The function `save_instance`: pickle `instance` to the file at `file_path`. -/
def save_instance (fs : FS) (instance_ : Nat) (file_path : Path) : FS :=
  setFile fs file_path (.pickled instance_)

/-- The function `create_user_folder`: return immediately if the path exists, otherwise
create the directory (with parents) and write the empty `users.csv` registry
with columns `user_id, add_date` into it. -/
def create_user_folder (fs : FS) (path : Path) : FS :=
  if pathExists fs path then fs
  else
    setFile (mkdirParents fs path) (path ++ ["users.csv"]) .registry

/-- Modelled from the spec: the order record of the framework's order model
(not under `src/`).  An order carries a stock identifier, a direction (sell
is the direction compared against `0` in `save_order_list`), an amount and a
per-date adjustment factor (integers: the module only stores and retrieves
them), and a trade date.  Note the module also names the `Order` class in
`load_order_list` without importing it, but that line is unreachable: the
`json.load` call before it already raises `NameError`. -/
structure Order where
  stock_id : String
  amount : Int
  direction : Int
  factor : Int
  trade_date : TradeDate
deriving DecidableEq, Repr

/-- Python dict assignment `d[k] = v` on an insertion-ordered dict: replace
the value in place if the key is present (dicts have at most one binding per
key), otherwise append the binding at the end. -/
def dictInsert : List (String × α) → String → α → List (String × α)
  | [], k, v => [(k, v)]
  | (a, b) :: t, k, v => if a = k then (k, v) :: t else (a, b) :: dictInsert t k v

/-- The path `user_path / "score" / YYYY / MM / "score_{date}.csv"` built by
`save_score_series`. -/
def save_score_path (user_path : Path) (d : TradeDate) : Path :=
  user_path ++ ["score", d.yyyy, d.mm, "score_" ++ dateStr d ++ ".csv"]

/-- The path `user_path / "score" / YYYY / MM / "score_{date}.csv"` built by
`load_score_series`. -/
def load_score_path (user_path : Path) (d : TradeDate) : Path :=
  user_path ++ ["score", d.yyyy, d.mm, "score_" ++ dateStr d ++ ".csv"]

/-- The path `user_path / "trade" / YYYY / MM / "orderlist_{date}.json"` built
by `save_order_list`. -/
def save_order_path (user_path : Path) (d : TradeDate) : Path :=
  user_path ++ ["trade", d.yyyy, d.mm, "orderlist_" ++ dateStr d ++ ".json"]

/-- The path `user_path / "trade" / YYYY / MM / "orderlist_{date}.json"` built
by `load_order_list`. -/
def load_order_path (user_path : Path) (d : TradeDate) : Path :=
  user_path ++ ["trade", d.yyyy, d.mm, "orderlist_" ++ dateStr d ++ ".json"]

/-- The function `save_score_series`: create `user_path/score/YYYY/MM` if absent, then
write the score series (a mapping instrument -> score, kept as its ordered
list of rows) as `score_{date}.csv` there.  `Series.to_csv`/`pd.read_csv` of
the external pandas library are modelled as writing and reading back exactly
the (instrument, score) rows. -/
def save_score_series (fs : FS) (score_series : List (String × Int))
    (user_path : Path) (d : TradeDate) : FS :=
  let folder_path := user_path ++ ["score", d.yyyy, d.mm]
  let fs := if pathExists fs folder_path then fs else mkdirParents fs folder_path
  setFile fs (save_score_path user_path d) (.csv score_series)

/-- The function `load_score_series`: create `user_path/score/YYYY/MM` if absent (the
function mkdirs even on a load), then `pd.read_csv` the score file; a missing
file surfaces as a `FileNotFoundError` from the library, not the module's
`ValueError`.  Returns the new filesystem state together with the result. -/
def load_score_series (fs : FS) (user_path : Path) (d : TradeDate) :
    FS × Except PyError (List (String × Int)) :=
  let folder_path := user_path ++ ["score", d.yyyy, d.mm]
  let fs := if pathExists fs folder_path then fs else mkdirParents fs folder_path
  let file_path := load_score_path user_path d
  match fileAt fs file_path with
  | some (.csv rows) => (fs, .ok rows)
  | some _ => (fs, .error (.otherError ("cannot parse " ++ pathStr file_path)))
  | none => (fs, .error (.fileNotFoundError (pathStr file_path)))

/-- The body of the loop of `save_order_list`: send the order to the `sell`
dict when `order.direction == 0` and to the `buy` dict otherwise, binding
`stock_id` to `[amount, factor]`. -/
def orderStep (sb : List (String × (Int × Int)) × List (String × (Int × Int)))
    (o : Order) : List (String × (Int × Int)) × List (String × (Int × Int)) :=
  if o.direction = 0 then
    (dictInsert sb.1 o.stock_id (o.amount, o.factor), sb.2)
  else
    (sb.1, dictInsert sb.2 o.stock_id (o.amount, o.factor))

/-- The loop of `save_order_list`: fold the orders into the `sell` and `buy`
dicts, starting from two empty dicts. -/
def buildOrderDicts (order_list : List Order) :
    List (String × (Int × Int)) × List (String × (Int × Int)) :=
  order_list.foldl orderStep ([], [])

/-- The function `save_order_list`: create `user_path/trade/YYYY/MM` if
absent, split the orders into the `sell` dict (direction `== 0`) and the
`buy` dict (all other directions) — this loop runs to completion — then open
`orderlist_{date}.json` for writing, which creates (or truncates) the file.
The next statement, `json.dump(order_dict, fp)`, raises
`NameError: name 'json' is not defined` because the module never imports
`json`; the `with` block closes the file and the exception propagates, so the
function leaves an empty file at the order-list path and never returns
normally.  The result is the new filesystem state paired with the raised
exception. -/
def save_order_list (fs : FS) (order_list : List Order) (user_path : Path)
    (d : TradeDate) : FS × Except PyError Unit :=
  let folder_path := user_path ++ ["trade", d.yyyy, d.mm]
  let fs := if pathExists fs folder_path then fs else mkdirParents fs folder_path
  let _order_dict := buildOrderDicts order_list
  (setFile fs (save_order_path user_path d) .empty,
   .error (.nameError "name 'json' is not defined"))

/-- The function `load_order_list`: raise `ValueError("File {} not exists!")`
if the order-list file is absent.  When the file exists, it is opened and the
next statement, `order_dict = json.load(fp)`, raises
`NameError: name 'json' is not defined` (the module never imports `json`, nor
the `Order` class used afterwards), so the success branch that would rebuild
the orders is unreachable. -/
def load_order_list (fs : FS) (user_path : Path) (d : TradeDate) :
    Except PyError (List Order) :=
  let path := load_order_path user_path d
  if pathExists fs path then
    match fileAt fs path with
    | some _ => .error (.nameError "name 'json' is not defined")
    | none => .error (.otherError ("cannot open " ++ pathStr path))
  else
    .error (.valueError ("File " ++ pathStr path ++ " not exists!"))

/-- Modelled from the spec: the narrow contract `prepare` expects from the
user manager (not under `src/`): `um.users[user_id].get_latest_trading_date()`
(an optional date string; Python treats both `None` and the empty string as
falsy) and the user's init date `um.user_record.loc[user_id][0]`. -/
structure UserManager where
  get_latest_trading_date : String → Option String
  init_date : String → String

/-- Modelled from the spec: the exchange simulator instance (not under
`src/`), as built by `Exchange(trade_dates=dates, **exchange_paras)`: it
records the trade dates and the configuration parameters it was given. -/
structure Exchange where
  trade_dates : List String
  paras : List (String × String)
deriving DecidableEq, Repr

/-- What `prepare` produces: the date list, the exchange (absent on the
short-circuited return), and the warnings logged on the way. -/
structure PrepareResult where
  dates : List String
  trade_exchange : Option Exchange
  warnings : List String
deriving DecidableEq, Repr

/-- The effective last trading date of the user: the recorded latest trading
date when it is truthy, otherwise (`None` or `""`) the user's init date. -/
def latestTradingDate (um : UserManager) (user_id : String) : String :=
  match um.get_latest_trading_date user_id with
  | none => um.init_date user_id
  | some s => if s = "" then um.init_date user_id else s

/-- The yaml-loaded exchange parameters: the contents of the configuration
file when one is given, `{}` otherwise. -/
def exchangeParas (exchange_config : Option (List (String × String))) :
    List (String × String) :=
  match exchange_config with
  | some paras => paras
  | none => []

/-- The function `prepare`: take the user's last trading date (init date if the user never
traded); if `str(today.date()) < latest_trading_date` (Python string
comparison), log a warning and return `([pd.Timestamp(latest)], None)`.
Otherwise list the calendar dates (future dates enabled) from the last
trading date through today, append the next trading date after the last of
them (`dates[-1]` raises `IndexError` on an empty calendar), and build the
exchange from the optional configuration file.  The external calendar service
`D.calendar(..., future=True)` and `get_next_trading_date(..., future=True)`
are passed in as the functions `cal` and `nextDate`; timestamps are modelled
by their date strings. -/
def prepare (cal : String → String → List String) (nextDate : String → String)
    (um : UserManager) (today : TradeDate) (user_id : String)
    (exchange_config : Option (List (String × String))) :
    Except PyError PrepareResult :=
  let latest_trading_date := latestTradingDate um user_id
  if dateStr today < latest_trading_date then
    .ok { dates := [latest_trading_date], trade_exchange := none,
          warnings := ["user_id:" ++ user_id ++ ", last trading date " ++
            latest_trading_date ++ " after today " ++ dateStr today] }
  else
    let dates := cal latest_trading_date (dateStr today)
    match dates.getLast? with
    | none => .error (.otherError "IndexError: list index out of range")
    | some last =>
        let dates := dates ++ [nextDate last]
        .ok { dates := dates,
              trade_exchange :=
                some { trade_dates := dates, paras := exchangeParas exchange_config },
              warnings := [] }

/-! ### Basic filesystem lemmas -/

theorem fileAt_setFile_self (fs : FS) (p : Path) (c : FileContent) :
    fileAt (setFile fs p c) p = some c := by
  simp [fileAt, setFile, List.lookup]

theorem fileAt_mkdirParents (fs : FS) (p q : Path) :
    fileAt (mkdirParents fs p) q = fileAt fs q := rfl

theorem pathExists_setFile_self (fs : FS) (p : Path) (c : FileContent) :
    pathExists (setFile fs p c) p = true := by
  simp [pathExists, setFile, List.lookup]

theorem mem_dirs_mkdirParents (fs : FS) (p : Path) :
    p ∈ (mkdirParents fs p).dirs := by
  simp [mkdirParents, List.mem_inits]

theorem pathExists_of_mem_dirs {fs : FS} {p : Path} (h : p ∈ fs.dirs) :
    pathExists fs p = true := by
  simp [pathExists, h]

theorem not_mem_dirs_of_not_pathExists {fs : FS} {p : Path}
    (h : pathExists fs p = false) : p ∉ fs.dirs := by
  intro hmem
  rw [pathExists_of_mem_dirs hmem] at h
  simp at h

theorem pathExists_create_user_folder (fs : FS) (p : Path) :
    pathExists (create_user_folder fs p) p = true := by
  by_cases h : pathExists fs p
  · simp [create_user_folder, h]
  · have hdir : p ∈ (create_user_folder fs p).dirs := by
      simp only [Bool.not_eq_true] at h
      simp [create_user_folder, h, setFile, mkdirParents, List.mem_inits]
    exact pathExists_of_mem_dirs hdir

/-! ### Lemmas about insertion-ordered dicts -/

theorem lookup_dictInsert_self {α : Type} (d : List (String × α)) (k : String)
    (v : α) : (dictInsert d k v).lookup k = some v := by
  induction d with
  | nil => simp [dictInsert, List.lookup]
  | cons hd tl ih =>
    obtain ⟨a, b⟩ := hd
    by_cases hk : a = k
    · subst hk; simp [dictInsert, List.lookup]
    · have hb : (k == a) = false := beq_eq_false_iff_ne.mpr (Ne.symm hk)
      simp only [dictInsert, if_neg hk, List.lookup, hb]
      exact ih

theorem lookup_dictInsert_ne {α : Type} (d : List (String × α)) {k k' : String}
    (v : α) (hne : k' ≠ k) : (dictInsert d k v).lookup k' = d.lookup k' := by
  induction d with
  | nil =>
    have hb : (k' == k) = false := beq_eq_false_iff_ne.mpr hne
    simp [dictInsert, List.lookup, hb]
  | cons hd tl ih =>
    obtain ⟨a, b⟩ := hd
    by_cases hk : a = k
    · subst hk
      have hb : (k' == a) = false := beq_eq_false_iff_ne.mpr hne
      simp [dictInsert, List.lookup, hb]
    · simp only [dictInsert, if_neg hk, List.lookup]
      cases hkk : (k' == a) with
      | true => rfl
      | false => exact ih

/-! ### Lemmas about the order dicts and saved files -/

theorem fileAt_save_score_series (fs : FS) (s : List (String × Int))
    (user_path : Path) (d : TradeDate) :
    fileAt (save_score_series fs s user_path d) (save_score_path user_path d) =
      some (.csv s) := by
  unfold save_score_series
  by_cases h : pathExists fs (user_path ++ ["score", d.yyyy, d.mm]) <;>
    simp [h, fileAt_setFile_self]

theorem fileAt_save_order_list (fs : FS) (L : List Order) (user_path : Path)
    (d : TradeDate) :
    fileAt (save_order_list fs L user_path d).1 (save_order_path user_path d) =
      some .empty := by
  unfold save_order_list
  by_cases h : pathExists fs (user_path ++ ["trade", d.yyyy, d.mm]) <;>
    simp [h, fileAt_setFile_self]

theorem buildOrderDicts_concat (L : List Order) (o : Order) :
    buildOrderDicts (L ++ [o]) = orderStep (buildOrderDicts L) o := by
  simp [buildOrderDicts, List.foldl_append]

theorem buildOrderDicts_fst_lookup (L : List Order) (sid : String) :
    (buildOrderDicts L).1.lookup sid =
      ((L.filter fun o => o.direction == 0 && o.stock_id == sid).getLast?).map
        (fun o => (o.amount, o.factor)) := by
  induction L using List.reverseRecOn with
  | nil => simp [buildOrderDicts]
  | append_singleton L o ih =>
    rw [buildOrderDicts_concat, List.filter_append]
    by_cases ho : o.direction = 0
    · by_cases hsid : o.stock_id = sid
      · subst hsid
        simp only [orderStep, if_pos ho]
        rw [lookup_dictInsert_self]
        have hf : [o].filter
            (fun o' => o'.direction == 0 && o'.stock_id == o.stock_id) = [o] := by
          simp [ho]
        rw [hf, List.getLast?_concat]
        rfl
      · simp only [orderStep, if_pos ho]
        rw [lookup_dictInsert_ne _ _ (Ne.symm hsid)]
        have hf : [o].filter
            (fun o' => o'.direction == 0 && o'.stock_id == sid) = [] := by
          simp [hsid]
        rw [hf, List.append_nil]
        exact ih
    · simp only [orderStep, if_neg ho]
      have hf : [o].filter
          (fun o' => o'.direction == 0 && o'.stock_id == sid) = [] := by
        simp [ho]
      rw [hf, List.append_nil]
      exact ih

theorem buildOrderDicts_snd_lookup (L : List Order) (sid : String) :
    (buildOrderDicts L).2.lookup sid =
      ((L.filter fun o => !(o.direction == 0) && o.stock_id == sid).getLast?).map
        (fun o => (o.amount, o.factor)) := by
  induction L using List.reverseRecOn with
  | nil => simp [buildOrderDicts]
  | append_singleton L o ih =>
    rw [buildOrderDicts_concat, List.filter_append]
    by_cases ho : o.direction = 0
    · simp only [orderStep, if_pos ho]
      have hf : [o].filter
          (fun o' => !(o'.direction == 0) && o'.stock_id == sid) = [] := by
        simp [ho]
      rw [hf, List.append_nil]
      exact ih
    · by_cases hsid : o.stock_id = sid
      · subst hsid
        simp only [orderStep, if_neg ho]
        rw [lookup_dictInsert_self]
        have hf : [o].filter
            (fun o' => !(o'.direction == 0) && o'.stock_id == o.stock_id) = [o] := by
          simp [ho]
        rw [hf, List.getLast?_concat]
        rfl
      · simp only [orderStep, if_neg ho]
        rw [lookup_dictInsert_ne _ _ (Ne.symm hsid)]
        have hf : [o].filter
            (fun o' => !(o'.direction == 0) && o'.stock_id == sid) = [] := by
          simp [hsid]
        rw [hf, List.append_nil]
        exact ih

/-! ### Claims about error reporting and folder creation -/

/-- C3: `load_instance` on a non-existent path raises
`ValueError("Cannot find file {path}")`, and `load_order_list` on a user path
and trade date whose order-list file is absent raises
`ValueError("File {path} not exists!")`; both messages name the missing
path. -/
theorem load_raises_valueError_naming_path :
    (∀ (fs : FS) (p : Path), pathExists fs p = false →
      load_instance fs p = .error (.valueError ("Cannot find file " ++ pathStr p))) ∧
    (∀ (fs : FS) (user_path : Path) (d : TradeDate),
      pathExists fs (load_order_path user_path d) = false →
      load_order_list fs user_path d =
        .error (.valueError
          ("File " ++ pathStr (load_order_path user_path d) ++ " not exists!"))) := by
  constructor
  · intro fs p h
    simp [load_instance, h]
  · intro fs user_path d h
    simp [load_order_list, h]

/-- Witness for C3 at the empty filesystem, `p = ["u", "model.pkl"]` and the
order list of user `"u"` on 2020-01-02. -/
theorem load_raises_valueError_naming_path_witness :
    load_instance ⟨[], []⟩ ["u", "model.pkl"] =
      .error (.valueError ("Cannot find file " ++ pathStr ["u", "model.pkl"])) ∧
    load_order_list ⟨[], []⟩ ["u"] ⟨"2020", "01", "02"⟩ =
      .error (.valueError
        ("File " ++ pathStr (load_order_path ["u"] ⟨"2020", "01", "02"⟩) ++
          " not exists!")) :=
  ⟨load_raises_valueError_naming_path.1 ⟨[], []⟩ ["u", "model.pkl"] rfl,
   load_raises_valueError_naming_path.2 ⟨[], []⟩ ["u"] ⟨"2020", "01", "02"⟩ rfl⟩

/-- C5: `create_user_folder` is idempotent: on an existing path it is a
no-op, and a second call leaves the filesystem (directories and the
`users.csv` registry) exactly as the first call left it. -/
theorem create_user_folder_idempotent :
    (∀ (fs : FS) (p : Path), pathExists fs p = true →
      create_user_folder fs p = fs) ∧
    (∀ (fs : FS) (p : Path),
      create_user_folder (create_user_folder fs p) p = create_user_folder fs p) := by
  have noop : ∀ (fs : FS) (p : Path), pathExists fs p = true →
      create_user_folder fs p = fs := by
    intro fs p h
    simp [create_user_folder, h]
  refine ⟨noop, fun fs p => noop _ p (pathExists_create_user_folder fs p)⟩

/-- Witness for C5: creating the folder `["u"]` twice from the empty
filesystem equals creating it once, and a call on the resulting state is a
no-op. -/
theorem create_user_folder_idempotent_witness :
    create_user_folder (create_user_folder ⟨[], []⟩ ["u"]) ["u"] =
      create_user_folder ⟨[], []⟩ ["u"] ∧
    create_user_folder ⟨[["u"]], []⟩ ["u"] = ⟨[["u"]], []⟩ :=
  ⟨create_user_folder_idempotent.2 ⟨[], []⟩ ["u"],
   create_user_folder_idempotent.1 ⟨[["u"]], []⟩ ["u"] rfl⟩

/-- C9: loading a score series whose directory and file are absent still
creates the date-partitioned directory `user_path/score/YYYY/MM` (a load
mutates the filesystem), and then fails with a `FileNotFoundError` from the
file read, not with the module's `ValueError`. -/
theorem load_score_series_mkdirs_and_fileNotFound
    (fs : FS) (user_path : Path) (d : TradeDate)
    (hdir : pathExists fs (user_path ++ ["score", d.yyyy, d.mm]) = false)
    (hfile : fileAt fs (load_score_path user_path d) = none) :
    user_path ++ ["score", d.yyyy, d.mm] ∈ (load_score_series fs user_path d).1.dirs ∧
    user_path ++ ["score", d.yyyy, d.mm] ∉ fs.dirs ∧
    (load_score_series fs user_path d).2 =
      .error (.fileNotFoundError (pathStr (load_score_path user_path d))) := by
  have heval : load_score_series fs user_path d =
      (mkdirParents fs (user_path ++ ["score", d.yyyy, d.mm]),
       .error (.fileNotFoundError (pathStr (load_score_path user_path d)))) := by
    simp only [load_score_series, hdir, Bool.false_eq_true, if_false,
      fileAt_mkdirParents, hfile]
  rw [heval]
  exact ⟨mem_dirs_mkdirParents fs _, not_mem_dirs_of_not_pathExists hdir, rfl⟩

/-- Witness for C9 at the empty filesystem, user path `["u"]` and trade date
2020-01-02. -/
theorem load_score_series_mkdirs_and_fileNotFound_witness :
    ["u", "score", "2020", "01"] ∈
      (load_score_series ⟨[], []⟩ ["u"] ⟨"2020", "01", "02"⟩).1.dirs ∧
    ["u", "score", "2020", "01"] ∉ FS.dirs ⟨[], []⟩ ∧
    (load_score_series ⟨[], []⟩ ["u"] ⟨"2020", "01", "02"⟩).2 =
      .error (.fileNotFoundError
        (pathStr (load_score_path ["u"] ⟨"2020", "01", "02"⟩))) :=
  load_score_series_mkdirs_and_fileNotFound ⟨[], []⟩ ["u"] ⟨"2020", "01", "02"⟩
    rfl rfl

/-! ### Claims about `prepare` -/

/-- C2: when the user's recorded last-trade date is after today
(`str(today.date()) < latest_trading_date`), `prepare` logs a warning and
returns the single-element date list `[latest_trading_date]` with no
exchange. -/
theorem prepare_short_circuit (cal : String → String → List String)
    (nextDate : String → String) (um : UserManager) (today : TradeDate)
    (user_id : String) (exchange_config : Option (List (String × String)))
    (h : dateStr today < latestTradingDate um user_id) :
    prepare cal nextDate um today user_id exchange_config =
      .ok { dates := [latestTradingDate um user_id], trade_exchange := none,
            warnings := ["user_id:" ++ user_id ++ ", last trading date " ++
              latestTradingDate um user_id ++ " after today " ++ dateStr today] } := by
  simp [prepare, h]

/-- Witness for C2: a user whose last trading date 2020-01-05 is after today
2020-01-02. -/
theorem prepare_short_circuit_witness :
    prepare (fun _ _ => []) (fun s => s)
      ⟨fun _ => some "2020-01-05", fun _ => "2020-01-01"⟩
      ⟨"2020", "01", "02"⟩ "u" none =
      .ok { dates := ["2020-01-05"], trade_exchange := none,
            warnings :=
              ["user_id:u, last trading date 2020-01-05 after today 2020-01-02"] } := by
  have h : dateStr (⟨"2020", "01", "02"⟩ : TradeDate) <
      latestTradingDate ⟨fun _ => some "2020-01-05", fun _ => "2020-01-01"⟩ "u" := by
    show ("2020-01-02" : String) < "2020-01-05"
    rw [String.lt_iff_toList_lt]
    decide
  exact prepare_short_circuit _ _ _ _ _ _ h

/-- C6: when the recorded last-trade date is not after today, `prepare`
returns the calendar dates (future enabled) from the last trading date
through today with exactly one look-ahead date — the next trading date after
the last calendar date — appended, together with an exchange built on those
dates from the optional configuration file. -/
theorem prepare_computes_dates (cal : String → String → List String)
    (nextDate : String → String) (um : UserManager) (today : TradeDate)
    (user_id : String) (exchange_config : Option (List (String × String)))
    (h : ¬ dateStr today < latestTradingDate um user_id)
    (hne : cal (latestTradingDate um user_id) (dateStr today) ≠ []) :
    prepare cal nextDate um today user_id exchange_config =
      .ok { dates := cal (latestTradingDate um user_id) (dateStr today) ++
              [nextDate ((cal (latestTradingDate um user_id) (dateStr today)).getLast hne)],
            trade_exchange := some
              { trade_dates := cal (latestTradingDate um user_id) (dateStr today) ++
                  [nextDate ((cal (latestTradingDate um user_id) (dateStr today)).getLast hne)],
                paras := exchangeParas exchange_config },
            warnings := [] } := by
  simp only [prepare, if_neg h, List.getLast?_eq_getLast _ hne]

/-- Witness for C6: a user whose last trading date 2020-01-01 is not after
today 2020-01-02, a calendar of two dates and the look-ahead 2020-01-03. -/
theorem prepare_computes_dates_witness :
    prepare (fun _ _ => ["2020-01-01", "2020-01-02"]) (fun _ => "2020-01-03")
      ⟨fun _ => none, fun _ => "2020-01-01"⟩ ⟨"2020", "01", "02"⟩ "u" none =
      .ok { dates := ["2020-01-01", "2020-01-02", "2020-01-03"],
            trade_exchange := some
              { trade_dates := ["2020-01-01", "2020-01-02", "2020-01-03"],
                paras := [] },
            warnings := [] } := by
  have h : ¬ dateStr (⟨"2020", "01", "02"⟩ : TradeDate) <
      latestTradingDate ⟨fun _ => none, fun _ => "2020-01-01"⟩ "u" := by
    show ¬ ("2020-01-02" : String) < "2020-01-01"
    rw [String.lt_iff_toList_lt]
    decide
  have hne : (fun _ _ => ["2020-01-01", "2020-01-02"] : String → String → List String)
      (latestTradingDate ⟨fun _ => none, fun _ => "2020-01-01"⟩ "u")
      (dateStr (⟨"2020", "01", "02"⟩ : TradeDate)) ≠ [] := by
    simp
  exact prepare_computes_dates _ _ _ _ _ _ h hne

/-! ### Claims about path construction -/

theorem str_append_left_cancel {a b c : String} (h : a ++ b = a ++ c) : b = c := by
  have hd := congrArg String.data h
  simp only [String.data_append] at hd
  exact String.ext (List.append_cancel_left hd)

theorem str_append_right_cancel {a b c : String} (h : a ++ c = b ++ c) : a = b := by
  have hd := congrArg String.data h
  simp only [String.data_append] at hd
  exact String.ext (List.append_cancel_right hd)

theorem tradeDate_eq_of_components {d d' : TradeDate} (hy : d.yyyy = d'.yyyy)
    (hm : d.mm = d'.mm) (hs : dateStr d = dateStr d') : d = d' := by
  unfold dateStr at hs
  rw [hy, hm] at hs
  have hdd := str_append_left_cancel hs
  cases d; cases d'
  simp_all

theorem save_score_path_inj {up up' : Path} {d d' : TradeDate}
    (h : save_score_path up d = save_score_path up' d') : up = up' ∧ d = d' := by
  unfold save_score_path at h
  obtain ⟨h1, h2⟩ := List.append_inj' h (by simp)
  simp only [List.cons.injEq, and_true] at h2
  obtain ⟨-, hy, hm, hf⟩ := h2
  have hs := str_append_left_cancel (str_append_right_cancel hf)
  exact ⟨h1, tradeDate_eq_of_components hy hm hs⟩

theorem save_order_path_inj {up up' : Path} {d d' : TradeDate}
    (h : save_order_path up d = save_order_path up' d') : up = up' ∧ d = d' := by
  unfold save_order_path at h
  obtain ⟨h1, h2⟩ := List.append_inj' h (by simp)
  simp only [List.cons.injEq, and_true] at h2
  obtain ⟨-, hy, hm, hf⟩ := h2
  have hs := str_append_left_cancel (str_append_right_cancel hf)
  exact ⟨h1, tradeDate_eq_of_components hy hm hs⟩

/-- C7: the score and order files live at
`user_path/score/YYYY/MM/score_<date>.csv` and
`user_path/trade/YYYY/MM/orderlist_<date>.json`; `save_score_series` writes
the score file at exactly its path, `save_order_list` creates its file at
exactly its path (only empty: the missing `json` import aborts the dump and
the function raises `NameError`), the load functions read from the same
paths, and the paths are uniquely determined by (user root, kind, year,
month, date-string): equal paths force equal roots and dates, and a score
path is never an order path. -/
theorem date_partitioned_paths :
    (∀ (user_path : Path) (d : TradeDate),
      save_score_path user_path d = load_score_path user_path d ∧
      save_order_path user_path d = load_order_path user_path d ∧
      save_score_path user_path d =
        user_path ++ ["score", d.yyyy, d.mm, "score_" ++ dateStr d ++ ".csv"] ∧
      save_order_path user_path d =
        user_path ++ ["trade", d.yyyy, d.mm, "orderlist_" ++ dateStr d ++ ".json"]) ∧
    (∀ (fs : FS) (s : List (String × Int)) (user_path : Path) (d : TradeDate),
      fileAt (save_score_series fs s user_path d) (save_score_path user_path d) =
        some (.csv s)) ∧
    (∀ (fs : FS) (L : List Order) (user_path : Path) (d : TradeDate),
      fileAt (save_order_list fs L user_path d).1 (save_order_path user_path d) =
        some .empty ∧
      (save_order_list fs L user_path d).2 =
        .error (.nameError "name 'json' is not defined")) ∧
    (∀ (up up' : Path) (d d' : TradeDate),
      save_score_path up d = save_score_path up' d' → up = up' ∧ d = d') ∧
    (∀ (up up' : Path) (d d' : TradeDate),
      save_order_path up d = save_order_path up' d' → up = up' ∧ d = d') ∧
    (∀ (up up' : Path) (d d' : TradeDate),
      save_score_path up d ≠ save_order_path up' d') := by
  refine ⟨fun user_path d => ⟨rfl, rfl, rfl, rfl⟩, ?_, ?_, ?_, ?_, ?_⟩
  · intro fs s user_path d
    unfold save_score_series
    by_cases h : pathExists fs (user_path ++ ["score", d.yyyy, d.mm]) <;>
      simp [h, fileAt_setFile_self]
  · intro fs L user_path d
    refine ⟨fileAt_save_order_list fs L user_path d, ?_⟩
    unfold save_order_list
    by_cases h : pathExists fs (user_path ++ ["trade", d.yyyy, d.mm]) <;>
      simp [h]
  · exact fun up up' d d' h => save_score_path_inj h
  · exact fun up up' d d' h => save_order_path_inj h
  · intro up up' d d' h
    obtain ⟨-, h2⟩ := List.append_inj' h (by simp)
    simp at h2

/-- Witness for C7: the injectivity component applied at user root `["u"]`
and trade date 2020-01-02. -/
theorem date_partitioned_paths_witness :
    (["u"] : Path) = ["u"] ∧
    (⟨"2020", "01", "02"⟩ : TradeDate) = ⟨"2020", "01", "02"⟩ :=
  date_partitioned_paths.2.2.2.1 ["u"] ["u"] ⟨"2020", "01", "02"⟩
    ⟨"2020", "01", "02"⟩ rfl

/-! ### Claims about round-tripping -/

/-- C4: saving a score series (a mapping instrument -> score) and loading it
back for the same user path and trade date yields the same data. -/
theorem save_load_score_series_roundtrip :
    ∀ (fs : FS) (s : List (String × Int)) (user_path : Path) (d : TradeDate),
      (load_score_series (save_score_series fs s user_path d) user_path d).2 =
        .ok s := by
  intro fs s user_path d
  have hpath : load_score_path user_path d = save_score_path user_path d := rfl
  have hfile : ∀ (fs' : FS) (q : Path),
      fileAt (if pathExists fs' q = true then fs' else mkdirParents fs' q)
        (save_score_path user_path d) = fileAt fs' (save_score_path user_path d) := by
    intro fs' q
    split <;> rfl
  simp only [load_score_series, hpath, hfile, fileAt_save_score_series]

/-! ### Claims about the order-list file: the missing `json`/`Order` imports -/

/-- C1 (code bug): the order-list round trip cannot occur.  At a concrete
order list, `save_order_list` raises `NameError` (the module never imports
`json`) right after `open("w")` created an empty file, and `load_order_list`
on a filesystem already holding a well-formed order-list file raises the same
`NameError` at `json.load` instead of returning orders. -/
theorem save_load_order_list_nameError :
    (save_order_list ⟨[], []⟩ [⟨"sh600000", 1, 0, 1, ⟨"2020", "01", "02"⟩⟩]
        ["u"] ⟨"2020", "01", "02"⟩).2 =
      .error (.nameError "name 'json' is not defined") ∧
    fileAt (save_order_list ⟨[], []⟩ [⟨"sh600000", 1, 0, 1, ⟨"2020", "01", "02"⟩⟩]
        ["u"] ⟨"2020", "01", "02"⟩).1
      (save_order_path ["u"] ⟨"2020", "01", "02"⟩) = some .empty ∧
    load_order_list
        ⟨[], [(load_order_path ["u"] ⟨"2020", "01", "02"⟩,
               .json (.obj [("sell", .obj []), ("buy", .obj [])]))]⟩
        ["u"] ⟨"2020", "01", "02"⟩ =
      .error (.nameError "name 'json' is not defined") :=
  ⟨rfl, rfl, rfl⟩

/-- C8 (code bug): no JSON object is ever written.  At a concrete order list,
the file `save_order_list` leaves at the order-list path is empty — not the
`{"sell": ..., "buy": ...}` document the claim describes — because the
function raises `NameError` before `json.dump` runs. -/
theorem save_order_list_no_json_written :
    fileAt (save_order_list ⟨[], []⟩ [⟨"sz000001", 5, 1, 3, ⟨"2021", "03", "04"⟩⟩]
        ["users", "a"] ⟨"2021", "03", "04"⟩).1
      (save_order_path ["users", "a"] ⟨"2021", "03", "04"⟩) = some .empty ∧
    (save_order_list ⟨[], []⟩ [⟨"sz000001", 5, 1, 3, ⟨"2021", "03", "04"⟩⟩]
        ["users", "a"] ⟨"2021", "03", "04"⟩).2 =
      .error (.nameError "name 'json' is not defined") :=
  ⟨rfl, rfl⟩

/-- C10 (code bug): the classification loop of `save_order_list` is faithful
to the claim — an order goes to the `sell` dict exactly when its direction
equals 0 and to the `buy` dict otherwise, and within each group the binding
of a stock id is the (amount, factor) of the last matching order — but the
saved file never holds these bindings: at a concrete list with two sell
orders on one stock, the function leaves only an empty file and raises
`NameError` at `json.dump`. -/
theorem save_order_list_classifies_and_last_wins :
    (∀ (L : List Order) (sid : String),
      (buildOrderDicts L).1.lookup sid =
        ((L.filter fun o => o.direction == 0 && o.stock_id == sid).getLast?).map
          (fun o => (o.amount, o.factor)) ∧
      (buildOrderDicts L).2.lookup sid =
        ((L.filter fun o => !(o.direction == 0) && o.stock_id == sid).getLast?).map
          (fun o => (o.amount, o.factor))) ∧
    (save_order_list ⟨[], []⟩
        [⟨"sh600000", 1, 0, 1, ⟨"2020", "01", "02"⟩⟩,
         ⟨"sh600000", 2, 0, 1, ⟨"2020", "01", "02"⟩⟩]
        ["u"] ⟨"2020", "01", "02"⟩).2 =
      .error (.nameError "name 'json' is not defined") ∧
    fileAt (save_order_list ⟨[], []⟩
        [⟨"sh600000", 1, 0, 1, ⟨"2020", "01", "02"⟩⟩,
         ⟨"sh600000", 2, 0, 1, ⟨"2020", "01", "02"⟩⟩]
        ["u"] ⟨"2020", "01", "02"⟩).1
      (save_order_path ["u"] ⟨"2020", "01", "02"⟩) = some .empty :=
  ⟨fun L sid => ⟨buildOrderDicts_fst_lookup L sid, buildOrderDicts_snd_lookup L sid⟩,
   rfl, rfl⟩

end OnlineUtils
